import Mathlib

/-!
Shallow embedding of the JWT authentication core of the
cloudflare-workers-webauth-eval repository.

The embedding follows the TypeScript sources:
  - src/utils/jwt.ts            (token codec: generate/verify)
  - src/middleware/jwt-verify.ts (bearer extraction and the two middlewares)
  - src/middleware/request-logger.ts (logging isolation)
  - src/routes/password.ts      (PBKDF2 iteration clamping)
  - src/index.ts                (app.onError mapping)

Cryptography is modelled symbolically: a signature records which algorithm
and which key produced it and over what content; the jose jwtVerify call is
modelled as the checks jose performs, in order — header algorithm against the
caller-supplied allowed list, signature validity against the supplied key,
then the exp claim against the current time.  Base64-encoded PEM key blocks
in configuration are modelled by the identity of the key pair they encode
(the decode/import steps of jwt.ts are injective plumbing with no branching).
-/

/-- The three supported signature algorithms (type Algorithm in jwt.ts). -/
inductive Algorithm
  | HS256
  | RS256
  | ES256
deriving DecidableEq

/-- The JWT claims payload (interface TokenPayload in jwt.ts).  The type
claim is an arbitrary optional string on the wire: the middleware compares
it against the exact strings "access" / "refresh". -/
structure TokenPayload where
  sub : String
  email : String
  iat : Option Nat := none
  exp : Option Nat := none
  type : Option String := none
deriving DecidableEq

/-- A signing key: the HS256 shared secret, or the private half of an
RS256/ES256 key pair (key pairs are identified symbolically by a number). -/
inductive SignKey
  | hmacSecret (s : String)
  | pairPriv (id : Nat)
deriving DecidableEq

/-- A verification key: the HS256 shared secret, or the public half of an
RS256/ES256 key pair. -/
inductive VerifyKey
  | hmacSecret (s : String)
  | pairPub (id : Nat)
deriving DecidableEq

/-- Whether a signature made with the given signing key verifies under the
given verification key: the same HMAC secret, or the public half of the same
key pair.  An HMAC tag whose secret happens to be the byte string of some
PEM public key is never a valid asymmetric signature (and vice versa). -/
def keyMatches : SignKey → VerifyKey → Bool
  | .hmacSecret s, .hmacSecret t => s == t
  | .pairPriv i, .pairPub j => i == j
  | _, _ => false

/-- A symbolic signature: which algorithm and key produced it, and over
which header algorithm and payload it was computed. -/
structure Sig where
  alg : Algorithm
  key : SignKey
  headerAlg : Algorithm
  payload : TokenPayload
deriving DecidableEq

/-- A compact JWT: either not parseable as three base64url segments, or a
header-declared algorithm, a cleartext payload, and a signature. -/
inductive Token
  | malformed
  | signed (headerAlg : Algorithm) (payload : TokenPayload) (sig : Sig)
deriving DecidableEq

/-- The failures jose jwtVerify can raise, in the order it checks them. -/
inductive JoseError
  | invalidFormat
  | algNotAllowed
  | invalidSignature
  | expired
deriving DecidableEq

/-- jose jwtVerify(token, key, { algorithms }): parse, check the header
algorithm against the caller's allowed list, verify the signature with the
supplied key, then reject iff the exp claim is at or before now (jose
requires exp strictly in the future; a missing exp is not checked). -/
def joseJwtVerify (t : Token) (vk : VerifyKey) (allowed : List Algorithm)
    (now : Nat) : Except JoseError TokenPayload :=
  match t with
  | .malformed => .error .invalidFormat
  | .signed hAlg payload sig =>
    if hAlg ∈ allowed then
      if sig.alg = hAlg ∧ sig.headerAlg = hAlg ∧ sig.payload = payload ∧
          keyMatches sig.key vk = true then
        match payload.exp with
        | some e => if e ≤ now then .error .expired else .ok payload
        | none => .ok payload
      else .error .invalidSignature
    else .error .algNotAllowed

/-- interface JWTConfig in jwt.ts.  secret is the HS256 shared secret;
privateKey / publicKey stand for the base64-encoded PEM blocks, modelled by
the identity of the key pair they encode.  Expiries are in seconds
(accessTokenExpiry default 15m, refreshTokenExpiry default 7d). -/
structure JWTConfig where
  algorithm : Algorithm
  secret : Option String := none
  privateKey : Option Nat := none
  publicKey : Option Nat := none
  accessTokenExpiry : Nat := 900
  refreshTokenExpiry : Nat := 604800
deriving DecidableEq

/-- The errors thrown by generateAccessToken / generateRefreshToken /
verifyToken in jwt.ts: the three missing-key Errors, or a jose failure. -/
inductive JwtError
  | secretRequired
  | privateKeyRequired
  | publicKeyRequired
  | jose (e : JoseError)
deriving DecidableEq

/-- Signing produces a token whose header declares exactly the signing
algorithm and whose signature covers that header and the payload
(SignJWT ... .setProtectedHeader .sign in jwt.ts). -/
def signToken (alg : Algorithm) (key : SignKey) (payload : TokenPayload) :
    Token :=
  .signed alg payload { alg := alg, key := key, headerAlg := alg, payload := payload }

/-- generateAccessToken (jwt.ts lines 66-94): stamps type "access",
iat = now, exp = now + accessTokenExpiry, and signs with the HS256 secret or
the RS256/ES256 private key; throws if the required key is absent. -/
def generateAccessToken (sub email : String) (config : JWTConfig)
    (now : Nat) : Except JwtError Token :=
  let payload : TokenPayload :=
    { sub := sub, email := email, iat := some now,
      exp := some (now + config.accessTokenExpiry), type := some "access" }
  match config.algorithm with
  | .HS256 =>
    match config.secret with
    | none => .error .secretRequired
    | some secret => .ok (signToken .HS256 (.hmacSecret secret) payload)
  | alg =>
    match config.privateKey with
    | none => .error .privateKeyRequired
    | some pk => .ok (signToken alg (.pairPriv pk) payload)

/-- generateRefreshToken (jwt.ts lines 99-127): as generateAccessToken but
with type "refresh" and exp = now + refreshTokenExpiry. -/
def generateRefreshToken (sub email : String) (config : JWTConfig)
    (now : Nat) : Except JwtError Token :=
  let payload : TokenPayload :=
    { sub := sub, email := email, iat := some now,
      exp := some (now + config.refreshTokenExpiry), type := some "refresh" }
  match config.algorithm with
  | .HS256 =>
    match config.secret with
    | none => .error .secretRequired
    | some secret => .ok (signToken .HS256 (.hmacSecret secret) payload)
  | alg =>
    match config.privateKey with
    | none => .error .privateKeyRequired
    | some pk => .ok (signToken alg (.pairPriv pk) payload)

/-- verifyToken (jwt.ts lines 132-153): for HS256 requires the secret and
calls jose jwtVerify with algorithms = [HS256]; otherwise requires the
public key and calls jose jwtVerify with algorithms = [config.algorithm].
The allowed-algorithm list always comes from the caller's config, never from
the token's own header. -/
def verifyToken (token : Token) (config : JWTConfig) (now : Nat) :
    Except JwtError TokenPayload :=
  match config.algorithm with
  | .HS256 =>
    match config.secret with
    | none => .error .secretRequired
    | some secret =>
      match joseJwtVerify token (.hmacSecret secret) [.HS256] now with
      | .error e => .error (.jose e)
      | .ok payload => .ok payload
  | alg =>
    match config.publicKey with
    | none => .error .publicKeyRequired
    | some pk =>
      match joseJwtVerify token (.pairPub pk) [alg] now with
      | .error e => .error (.jose e)
      | .ok payload => .ok payload

/-- decodeToken (jwt.ts lines 158-165): parses the claims without verifying
signature or expiry; null on an unparsable token. -/
def decodeToken (token : Token) : Option TokenPayload :=
  match token with
  | .malformed => none
  | .signed _ payload _ => some payload

/-- interface JWTMiddlewareConfig in jwt-verify.ts: the middleware holds the
algorithm plus the verification-side key material only. -/
structure JWTMiddlewareConfig where
  algorithm : Algorithm
  secret : Option String := none
  publicKey : Option Nat := none
deriving DecidableEq

/-- The JWTConfig the middleware builds before calling verifyToken
(jwt-verify.ts lines 54-58): algorithm, secret and publicKey copied from the
middleware config; no privateKey, default expiries. -/
def mwJwtConfig (c : JWTMiddlewareConfig) : JWTConfig :=
  { algorithm := c.algorithm, secret := c.secret, publicKey := c.publicKey }

/-- The externally observable outcome of a middleware run: proceed to the
handler with jwtPayload set in the context, or reject with an HTTPException
carrying a status and a message. -/
inductive AuthResult
  | ok (payload : TokenPayload)
  | reject (status : Nat) (message : String)
deriving DecidableEq

/-- extractToken (jwt-verify.ts lines 29-37): null when the Authorization
header is absent (or empty, which is falsy in JS), when it does not split
into exactly two space-separated parts, or when the first part is not
exactly Bearer; otherwise the second part. -/
def extractToken (authHeader : Option String) : Option String :=
  match authHeader with
  | none => none
  | some h =>
    if h = "" then none
    else
      match h.splitOn " " with
      | [scheme, tok] => if scheme = "Bearer" then some tok else none
      | _ => none

/-- The body of jwtAuth after token extraction (jwt-verify.ts lines 53-84):
verifyToken inside a try; any non-HTTPException failure (jose errors and the
missing-key Errors alike) is caught and becomes 401 with the generic
message; a payload whose type is not exactly "access" raises the distinct
wrong-type HTTPException, which the catch rethrows unchanged. -/
def jwtAuthCore (c : JWTMiddlewareConfig) (token : Token) (now : Nat) :
    AuthResult :=
  match verifyToken token (mwJwtConfig c) now with
  | .error _ => .reject 401 "Invalid or expired token"
  | .ok payload =>
    if payload.type = some "access" then .ok payload
    else .reject 401 "Invalid token type. Access token required."

/-- The body of refreshTokenAuth after token extraction (jwt-verify.ts lines
101-131): as jwtAuthCore but requiring type exactly "refresh", with its own
generic and wrong-type messages. -/
def refreshTokenAuthCore (c : JWTMiddlewareConfig) (token : Token)
    (now : Nat) : AuthResult :=
  match verifyToken token (mwJwtConfig c) now with
  | .error _ => .reject 401 "Invalid or expired refresh token"
  | .ok payload =>
    if payload.type = some "refresh" then .ok payload
    else .reject 401 "Invalid token type. Refresh token required."

/-- jwtAuth (jwt-verify.ts lines 43-86) on a whole request: extract the
bearer token from the Authorization header; a missing or empty token is
rejected immediately, before the key, the clock or the token parser
(represented by the parse argument) is consulted. -/
def jwtAuthOnRequest (c : JWTMiddlewareConfig) (authHeader : Option String)
    (parse : String → Token) (now : Nat) : AuthResult :=
  match extractToken authHeader with
  | none => .reject 401 "Authorization header is missing or invalid"
  | some tok =>
    if tok = "" then .reject 401 "Authorization header is missing or invalid"
    else jwtAuthCore c (parse tok) now

/-- refreshTokenAuth (jwt-verify.ts lines 91-133) on a whole request. -/
def refreshTokenAuthOnRequest (c : JWTMiddlewareConfig)
    (authHeader : Option String) (parse : String → Token) (now : Nat) :
    AuthResult :=
  match extractToken authHeader with
  | none => .reject 401 "Authorization header is missing or invalid"
  | some tok =>
    if tok = "" then .reject 401 "Authorization header is missing or invalid"
    else refreshTokenAuthCore c (parse tok) now

/-- hs256Auth (jwt-verify.ts lines 139-144): jwtAuth with algorithm HS256
and the secret fetched from the environment. -/
def hs256Auth (secret : String) (token : Token) (now : Nat) : AuthResult :=
  jwtAuthCore { algorithm := .HS256, secret := some secret } token now

/-- rs256Auth (jwt-verify.ts lines 150-155). -/
def rs256Auth (publicKey : Nat) (token : Token) (now : Nat) : AuthResult :=
  jwtAuthCore { algorithm := .RS256, publicKey := some publicKey } token now

/-- es256Auth (jwt-verify.ts lines 161-166). -/
def es256Auth (publicKey : Nat) (token : Token) (now : Nat) : AuthResult :=
  jwtAuthCore { algorithm := .ES256, publicKey := some publicKey } token now

/-- hs256RefreshAuth (jwt-verify.ts lines 172-177). -/
def hs256RefreshAuth (secret : String) (token : Token) (now : Nat) :
    AuthResult :=
  refreshTokenAuthCore { algorithm := .HS256, secret := some secret } token now

/-- rs256RefreshAuth (jwt-verify.ts lines 183-188). -/
def rs256RefreshAuth (publicKey : Nat) (token : Token) (now : Nat) :
    AuthResult :=
  refreshTokenAuthCore { algorithm := .RS256, publicKey := some publicKey } token now

/-- es256RefreshAuth (jwt-verify.ts lines 194-199). -/
def es256RefreshAuth (publicKey : Nat) (token : Token) (now : Nat) :
    AuthResult :=
  refreshTokenAuthCore { algorithm := .ES256, publicKey := some publicKey } token now

/-- The JSON body and status produced by app.onError in index.ts. -/
structure ErrorResponse where
  status : Nat
  label : String
  message : String
deriving DecidableEq

/-- app.onError (index.ts lines 174-196) on an error that carries a numeric
status (every HTTPException): the response reuses that status, labels it
Internal Server Error for 5xx and Request Error otherwise, and echoes the
error's own message as the body message. -/
def appOnError (status : Nat) (message : String) : ErrorResponse :=
  { status := status,
    label := if 500 ≤ status then "Internal Server Error" else "Request Error",
    message := message }

/-- The HTTP response a middleware rejection produces once app.onError has
rendered the HTTPException. -/
def rejectionResponse (r : AuthResult) : Option ErrorResponse :=
  match r with
  | .ok _ => none
  | .reject s m => some (appOnError s m)

/-- interface RequestLog in request-logger.ts. -/
structure RequestLog where
  request_id : String
  timestamp : String
  method : String
  path : String
  status : Nat
  latency_ms : Nat
  user_id : Option String
  algorithm : Option String
  token_type : Option String
  ip : Option String
  user_agent : Option String
  error_message : Option String
deriving DecidableEq

/-- Whether one string occurs inside another (the regex test of
extractAlgorithm): pat occurs in s iff splitting s on pat yields at least
two pieces. -/
def containsSub (s pat : String) : Bool :=
  (s.splitOn pat).length ≥ 2

/-- extractAlgorithm (request-logger.ts lines 33-36): matches the path
against /auth/(hs256|rs256|es256)/ and upper-cases the captured group. -/
def extractAlgorithm (path : String) : Option String :=
  if containsSub path "/auth/hs256/" then some "HS256"
  else if containsSub path "/auth/rs256/" then some "RS256"
  else if containsSub path "/auth/es256/" then some "ES256"
  else none

/-- What the saveLog helper does with the D1 write: saved, or the failure
caught and reported to console.error — never rethrown. -/
inductive SaveOutcome
  | saved
  | swallowed (errorLogged : String)
deriving DecidableEq

/-- saveLog (request-logger.ts lines 41-65): performs the INSERT; any error
is caught inside saveLog and only written to console.error. -/
def saveLog (dbInsert : RequestLog → Except String Unit)
    (log : RequestLog) : SaveOutcome :=
  match dbInsert log with
  | .ok _ => .saved
  | .error e => .swallowed e

/-- How the wrapped handler chain (await next()) finishes: a response with a
status and possibly a jwtPayload left in the context, or a thrown error with
a message and possibly a numeric status. -/
inductive NextOutcome
  | ok (status : Nat) (jwtPayload : Option TokenPayload)
  | thrown (message : String) (status : Option Nat)
deriving DecidableEq

/-- requestLogger (request-logger.ts lines 71-136): runs next, derives the
log fields from the outcome (status from the response or the thrown error's
status, defaulting to 500; user id and token type from the jwtPayload, with
JS-falsy empty strings mapped to null), and in the finally block dispatches
saveLog via waitUntil when a DB binding is present.  The first component of
the result is the request outcome handed back to the server — the response
is returned, a thrown error is rethrown — and the second is the fate of the
log write. -/
def requestLogger (dbInsert : Option (RequestLog → Except String Unit))
    (requestId timestamp method path : String) (ip userAgent : Option String)
    (latencyMs : Nat) (next : NextOutcome) :
    NextOutcome × Option SaveOutcome :=
  let algorithm := extractAlgorithm path
  let status : Nat :=
    match next with
    | .ok s _ => s
    | .thrown _ (some s) => s
    | .thrown _ none => 500
  let errorMessage : Option String :=
    match next with
    | .ok _ _ => none
    | .thrown m _ => some m
  let userId : Option String :=
    match next with
    | .ok _ (some p) => if p.sub = "" then none else some p.sub
    | _ => none
  let tokenType : Option String :=
    match next with
    | .ok _ (some p) =>
      match p.type with
      | some t => if t = "" then none else some t
      | none => none
    | _ => none
  let log : RequestLog :=
    { request_id := requestId, timestamp := timestamp, method := method,
      path := path, status := status, latency_ms := latencyMs,
      user_id := userId, algorithm := algorithm, token_type := tokenType,
      ip := ip, user_agent := userAgent, error_message := errorMessage }
  (next, dbInsert.map (fun db => saveLog db log))

/-- The iteration clamp shared by the password endpoints
(Math.min(Math.max(iterations, 1000), 100000)). -/
def clampIterations (i : Int) : Int :=
  min (max i 1000) 100000

/-- The iteration count used by POST /auth/password/login (password.ts lines
121-126): the parsed iterations query parameter when present, else 100000,
then clamped. -/
def loginIterations (iterationsParam : Option Int) : Int :=
  clampIterations
    (match iterationsParam with
     | some i => i
     | none => 100000)

/-- The iteration count used by POST /auth/password/hash (password.ts lines
196-200): body.iterations || 100000 (JS: a 0 value is falsy and falls back
to the default), then clamped. -/
def hashIterations (bodyIterations : Option Int) : Int :=
  clampIterations
    (match bodyIterations with
     | some i => if i = 0 then 100000 else i
     | none => 100000)

/-- The verification-side key the middleware config supplies matches the
given signing key: for HS256 the same secret, for RS256/ES256 the public
half of the pair whose private half signed. -/
def mwKeyOk (c : JWTMiddlewareConfig) (key : SignKey) : Bool :=
  match c.algorithm, c.secret, c.publicKey with
  | .HS256, some s, _ => keyMatches key (.hmacSecret s)
  | .HS256, none, _ => false
  | _, _, some k => keyMatches key (.pairPub k)
  | _, _, none => false

/-- The payload is unexpired at the given time (its exp, when present, is
strictly in the future — the condition under which jose accepts it). -/
def expOk (p : TokenPayload) (now : Nat) : Bool :=
  match p.exp with
  | none => true
  | some e => now < e

/-- The config carries the key material its algorithm needs for both signing
and verification, with the asymmetric halves belonging to the same pair. -/
def keysPaired (cfg : JWTConfig) : Bool :=
  match cfg.algorithm, cfg.secret, cfg.privateKey, cfg.publicKey with
  | .HS256, some _, _, _ => true
  | .HS256, none, _, _ => false
  | _, _, some k, some k2 => k == k2
  | _, _, _, _ => false

/-- An Authorization header shape on which extraction must fail: absent, not
exactly two space-separated parts, or a scheme other than Bearer. -/
def extractionFailShape (h : Option String) : Bool :=
  match h with
  | none => true
  | some s =>
    ((s.splitOn " ").length != 2) || ((s.splitOn " ").head? != some "Bearer")

/-- A token signed with the middleware's configured algorithm by a key the
middleware's verification key matches, and unexpired, passes verifyToken and
yields back exactly its payload. -/
theorem verify_signToken_ok (c : JWTMiddlewareConfig) (key : SignKey)
    (p : TokenPayload) (now : Nat)
    (hkey : mwKeyOk c key = true) (hexp : expOk p now = true) :
    verifyToken (signToken c.algorithm key p) (mwJwtConfig c) now = .ok p := by
  have hjose : ∀ (vk : VerifyKey), keyMatches key vk = true →
      ∀ a : Algorithm, joseJwtVerify (signToken a key p) vk [a] now = .ok p := by
    intro vk hk a
    cases hex : p.exp with
    | none => simp [signToken, joseJwtVerify, hk, hex]
    | some e =>
      have hlt : now < e := by
        simp [expOk, hex] at hexp
        exact hexp
      have hnle : ¬ e ≤ now := by omega
      simp [signToken, joseJwtVerify, hk, hex, hnle]
  obtain ⟨alg, secret, publicKey⟩ := c
  cases alg
  case HS256 =>
    cases secret with
    | none => simp [mwKeyOk] at hkey
    | some s =>
      simp only [mwKeyOk] at hkey
      simp [verifyToken, mwJwtConfig, hjose (.hmacSecret s) hkey .HS256]
  case RS256 =>
    cases publicKey with
    | none => simp [mwKeyOk] at hkey
    | some k =>
      simp only [mwKeyOk] at hkey
      simp [verifyToken, mwJwtConfig, hjose (.pairPub k) hkey .RS256]
  case ES256 =>
    cases publicKey with
    | none => simp [mwKeyOk] at hkey
    | some k =>
      simp only [mwKeyOk] at hkey
      simp [verifyToken, mwJwtConfig, hjose (.pairPub k) hkey .ES256]

/-- C1: a token signed with algorithm A never passes verifyToken under a
config whose algorithm is B ≠ A, whatever key material either side holds —
in particular an HMAC token whose secret is the byte string of an RSA or EC
public key is rejected under an RS256/ES256 config — because verifyToken
passes algorithms = [config.algorithm] to jose, never the token's header. -/
theorem algorithm_pinning_rejects (A B : Algorithm) (key : SignKey)
    (p : TokenPayload) (cfg : JWTConfig) (now : Nat)
    (hne : B ≠ A) (halg : cfg.algorithm = B) :
    ∃ e, verifyToken (signToken A key p) cfg now = .error e := by
  have hmem : A ∉ [B] := by simp [Ne.symm hne]
  rcases cfg with ⟨alg, secret, priv, pub, ae, re⟩
  simp only at halg
  subst halg
  cases alg
  case HS256 =>
    cases secret with
    | none => exact ⟨.secretRequired, rfl⟩
    | some s =>
      exact ⟨.jose .algNotAllowed,
        by simp [verifyToken, signToken, joseJwtVerify, Ne.symm hne]⟩
  case RS256 =>
    cases pub with
    | none => exact ⟨.publicKeyRequired, rfl⟩
    | some k =>
      exact ⟨.jose .algNotAllowed,
        by simp [verifyToken, signToken, joseJwtVerify, Ne.symm hne]⟩
  case ES256 =>
    cases pub with
    | none => exact ⟨.publicKeyRequired, rfl⟩
    | some k =>
      exact ⟨.jose .algNotAllowed,
        by simp [verifyToken, signToken, joseJwtVerify, Ne.symm hne]⟩

/-- C1 witness: the classic confusion instance — a token HMAC-signed using
the PEM text of an RSA public key as the secret is rejected by a verifier
configured for RS256 with that key pair. -/
theorem algorithm_pinning_rejects_witness :
    Algorithm.RS256 ≠ Algorithm.HS256 ∧
    (JWTConfig.mk .RS256 none none (some 7) 900 604800).algorithm = .RS256 ∧
    ∃ e, verifyToken
        (signToken .HS256 (.hmacSecret "-----BEGIN PUBLIC KEY-----")
          { sub := "user-1", email := "test@example.com" })
        (JWTConfig.mk .RS256 none none (some 7) 900 604800) 0 = .error e :=
  ⟨by decide, rfl,
    algorithm_pinning_rejects .HS256 .RS256
      (.hmacSecret "-----BEGIN PUBLIC KEY-----")
      { sub := "user-1", email := "test@example.com" }
      (JWTConfig.mk .RS256 none none (some 7) 900 604800) 0
      (by decide) rfl⟩

/-- C3: any token whose exp claim is at or before the verification time is
rejected by verifyToken, for every config (hence all three algorithms) and
regardless of the token's signature: exp must be strictly in the future. -/
theorem expired_token_rejected (hAlg : Algorithm) (p : TokenPayload)
    (s : Sig) (cfg : JWTConfig) (now e : Nat)
    (hexp : p.exp = some e) (hle : e ≤ now) :
    ∃ err, verifyToken (.signed hAlg p s) cfg now = .error err := by
  have hjose : ∀ (vk : VerifyKey) (allowed : List Algorithm),
      ∃ je, joseJwtVerify (.signed hAlg p s) vk allowed now = .error je := by
    intro vk allowed
    by_cases h1 : hAlg ∈ allowed
    · by_cases h2 : s.alg = hAlg ∧ s.headerAlg = hAlg ∧ s.payload = p ∧
          keyMatches s.key vk = true
      · exact ⟨.expired, by simp [joseJwtVerify, h1, h2, hexp, hle]⟩
      · exact ⟨.invalidSignature, by simp [joseJwtVerify, h1, h2]⟩
    · exact ⟨.algNotAllowed, by simp [joseJwtVerify, h1]⟩
  rcases cfg with ⟨alg, secret, priv, pub, ae, re⟩
  cases alg
  case HS256 =>
    cases secret with
    | none => exact ⟨.secretRequired, rfl⟩
    | some sec =>
      obtain ⟨je, hje⟩ := hjose (.hmacSecret sec) [.HS256]
      exact ⟨.jose je, by simp [verifyToken, hje]⟩
  case RS256 =>
    cases pub with
    | none => exact ⟨.publicKeyRequired, rfl⟩
    | some k =>
      obtain ⟨je, hje⟩ := hjose (.pairPub k) [.RS256]
      exact ⟨.jose je, by simp [verifyToken, hje]⟩
  case ES256 =>
    cases pub with
    | none => exact ⟨.publicKeyRequired, rfl⟩
    | some k =>
      obtain ⟨je, hje⟩ := hjose (.pairPub k) [.ES256]
      exact ⟨.jose je, by simp [verifyToken, hje]⟩

/-- C3 witness: an HS256 token with a valid signature under the configured
secret but exp = 10 is rejected at time 10. -/
theorem expired_token_rejected_witness :
    ({ sub := "user-1", email := "t@example.com", iat := some 0,
       exp := some 10, type := some "access" } : TokenPayload).exp = some 10 ∧
    10 ≤ 10 ∧
    ∃ err, verifyToken
        (signToken .HS256 (.hmacSecret "secret")
          { sub := "user-1", email := "t@example.com", iat := some 0,
            exp := some 10, type := some "access" })
        { algorithm := .HS256, secret := some "secret" } 10 = .error err :=
  ⟨rfl, by decide,
    expired_token_rejected .HS256
      { sub := "user-1", email := "t@example.com", iat := some 0,
        exp := some 10, type := some "access" }
      { alg := .HS256, key := .hmacSecret "secret", headerAlg := .HS256,
        payload := { sub := "user-1", email := "t@example.com", iat := some 0,
                     exp := some 10, type := some "access" } }
      { algorithm := .HS256, secret := some "secret" } 10 10 rfl (by decide)⟩

/-- C4: for any algorithm and any config carrying its required, paired key
material, a token produced by generateAccessToken (resp.
generateRefreshToken) verifies under the same config at any time inside the
expiry window and yields exactly the input sub and email, type "access"
(resp. "refresh"), iat stamped to the issue time and exp stamped to issue
time plus the configured expiry. -/
theorem sign_verify_round_trip (cfg : JWTConfig) (sub email : String)
    (now nowA nowR : Nat) (hkeys : keysPaired cfg = true)
    (hA : nowA < now + cfg.accessTokenExpiry)
    (hR : nowR < now + cfg.refreshTokenExpiry) :
    (∃ t, generateAccessToken sub email cfg now = .ok t ∧
      verifyToken t cfg nowA =
        .ok { sub := sub, email := email, iat := some now,
              exp := some (now + cfg.accessTokenExpiry),
              type := some "access" }) ∧
    (∃ t, generateRefreshToken sub email cfg now = .ok t ∧
      verifyToken t cfg nowR =
        .ok { sub := sub, email := email, iat := some now,
              exp := some (now + cfg.refreshTokenExpiry),
              type := some "refresh" }) := by
  rcases cfg with ⟨alg, secret, priv, pub, ae, re⟩
  simp only [keysPaired] at hkeys
  simp only at hA hR
  have hA' : ¬ (now + ae ≤ nowA) := by omega
  have hR' : ¬ (now + re ≤ nowR) := by omega
  cases alg
  case HS256 =>
    cases secret with
    | none => simp at hkeys
    | some s =>
      refine ⟨⟨_, rfl, ?_⟩, ⟨_, rfl, ?_⟩⟩
      · simp [generateAccessToken, verifyToken, signToken, joseJwtVerify,
          keyMatches, hA']
      · simp [generateRefreshToken, verifyToken, signToken, joseJwtVerify,
          keyMatches, hR']
  case RS256 =>
    cases priv with
    | none => simp at hkeys
    | some k =>
      cases pub with
      | none => simp at hkeys
      | some k2 =>
        simp only [beq_iff_eq] at hkeys
        subst hkeys
        refine ⟨⟨_, rfl, ?_⟩, ⟨_, rfl, ?_⟩⟩
        · simp [generateAccessToken, verifyToken, signToken, joseJwtVerify,
            keyMatches, hA']
        · simp [generateRefreshToken, verifyToken, signToken, joseJwtVerify,
            keyMatches, hR']
  case ES256 =>
    cases priv with
    | none => simp at hkeys
    | some k =>
      cases pub with
      | none => simp at hkeys
      | some k2 =>
        simp only [beq_iff_eq] at hkeys
        subst hkeys
        refine ⟨⟨_, rfl, ?_⟩, ⟨_, rfl, ?_⟩⟩
        · simp [generateAccessToken, verifyToken, signToken, joseJwtVerify,
            keyMatches, hA']
        · simp [generateRefreshToken, verifyToken, signToken, joseJwtVerify,
            keyMatches, hR']

/-- C4 witness: an ES256 round trip with key pair 3, issued at time 100 and
verified at time 500, inside both expiry windows. -/
theorem sign_verify_round_trip_witness :
    keysPaired { algorithm := .ES256, privateKey := some 3,
                 publicKey := some 3 } = true ∧
    (500 : Nat) < 100 + (900 : Nat) ∧ (500 : Nat) < 100 + (604800 : Nat) ∧
    (∃ t, generateAccessToken "user-1" "test@example.com"
        { algorithm := .ES256, privateKey := some 3, publicKey := some 3 }
        100 = .ok t ∧
      verifyToken t
        { algorithm := .ES256, privateKey := some 3, publicKey := some 3 }
        500 =
        .ok { sub := "user-1", email := "test@example.com", iat := some 100,
              exp := some 1000, type := some "access" }) :=
  ⟨by decide, by decide, by decide,
    (sign_verify_round_trip
      { algorithm := .ES256, privateKey := some 3, publicKey := some 3 }
      "user-1" "test@example.com" 100 500 500 (by decide) (by decide)
      (by decide)).1⟩

/-- C2: a validly signed, unexpired token of type "refresh" is rejected with
status 401 by the access-token middleware, and one of type "access" is
rejected with status 401 by the refresh middleware, for every middleware
config (hence all three algorithms); the per-algorithm wrappers are exactly
jwtAuth / refreshTokenAuth at their fixed configs, so the same holds of
hs256Auth, rs256Auth, es256Auth and the three refresh wrappers. -/
theorem type_gating (c : JWTMiddlewareConfig) (key : SignKey)
    (p : TokenPayload) (now : Nat)
    (hkey : mwKeyOk c key = true) (hexp : expOk p now = true) :
    (p.type = some "refresh" →
      jwtAuthCore c (signToken c.algorithm key p) now =
        .reject 401 "Invalid token type. Access token required.") ∧
    (p.type = some "access" →
      refreshTokenAuthCore c (signToken c.algorithm key p) now =
        .reject 401 "Invalid token type. Refresh token required.") ∧
    (∀ s t n, hs256Auth s t n =
      jwtAuthCore { algorithm := .HS256, secret := some s } t n) ∧
    (∀ k t n, rs256Auth k t n =
      jwtAuthCore { algorithm := .RS256, publicKey := some k } t n) ∧
    (∀ k t n, es256Auth k t n =
      jwtAuthCore { algorithm := .ES256, publicKey := some k } t n) ∧
    (∀ s t n, hs256RefreshAuth s t n =
      refreshTokenAuthCore { algorithm := .HS256, secret := some s } t n) ∧
    (∀ k t n, rs256RefreshAuth k t n =
      refreshTokenAuthCore { algorithm := .RS256, publicKey := some k } t n) ∧
    (∀ k t n, es256RefreshAuth k t n =
      refreshTokenAuthCore { algorithm := .ES256, publicKey := some k } t n) := by
  have hv := verify_signToken_ok c key p now hkey hexp
  refine ⟨?_, ?_, ?_, ?_, ?_, ?_, ?_, ?_⟩
  · intro ht
    simp [jwtAuthCore, hv, ht]
  · intro ht
    simp [refreshTokenAuthCore, hv, ht]
  all_goals exact fun a t n => rfl

/-- C2 witness: an HS256 refresh token is rejected by the access middleware
and an HS256 access token by the refresh middleware. -/
theorem type_gating_witness :
    mwKeyOk { algorithm := .HS256, secret := some "k" }
      (.hmacSecret "k") = true ∧
    expOk { sub := "u", email := "e", exp := some 100,
            type := some "refresh" } 0 = true ∧
    jwtAuthCore { algorithm := .HS256, secret := some "k" }
      (signToken .HS256 (.hmacSecret "k")
        { sub := "u", email := "e", exp := some 100, type := some "refresh" })
      0 = .reject 401 "Invalid token type. Access token required." :=
  ⟨by decide, by decide,
    (type_gating { algorithm := .HS256, secret := some "k" }
      (.hmacSecret "k")
      { sub := "u", email := "e", exp := some 100, type := some "refresh" }
      0 (by decide) (by decide)).1 rfl⟩

/-- C10: a validly signed, unexpired token whose type claim is missing or is
any string other than exactly "access" is rejected with status 401 by the
access-token middleware, and one whose type is not exactly "refresh" by the
refresh middleware — the check is exact string equality with no fallback. -/
theorem missing_or_wrong_type_rejected (c : JWTMiddlewareConfig)
    (key : SignKey) (p : TokenPayload) (now : Nat)
    (hkey : mwKeyOk c key = true) (hexp : expOk p now = true) :
    (p.type ≠ some "access" →
      jwtAuthCore c (signToken c.algorithm key p) now =
        .reject 401 "Invalid token type. Access token required.") ∧
    (p.type ≠ some "refresh" →
      refreshTokenAuthCore c (signToken c.algorithm key p) now =
        .reject 401 "Invalid token type. Refresh token required.") := by
  have hv := verify_signToken_ok c key p now hkey hexp
  constructor
  · intro ht
    simp [jwtAuthCore, hv, ht]
  · intro ht
    simp [refreshTokenAuthCore, hv, ht]

/-- C10 witness: a validly signed ES256 token with no type claim is rejected
by both middlewares, and one with type "Access" (wrong case) is rejected by
the access middleware. -/
theorem missing_or_wrong_type_rejected_witness :
    mwKeyOk { algorithm := .ES256, publicKey := some 1 }
      (.pairPriv 1) = true ∧
    expOk { sub := "u", email := "e", exp := some 100 } 0 = true ∧
    jwtAuthCore { algorithm := .ES256, publicKey := some 1 }
      (signToken .ES256 (.pairPriv 1)
        { sub := "u", email := "e", exp := some 100 }) 0 =
      .reject 401 "Invalid token type. Access token required." ∧
    refreshTokenAuthCore { algorithm := .ES256, publicKey := some 1 }
      (signToken .ES256 (.pairPriv 1)
        { sub := "u", email := "e", exp := some 100 }) 0 =
      .reject 401 "Invalid token type. Refresh token required." ∧
    jwtAuthCore { algorithm := .ES256, publicKey := some 1 }
      (signToken .ES256 (.pairPriv 1)
        { sub := "u", email := "e", exp := some 100,
          type := some "Access" }) 0 =
      .reject 401 "Invalid token type. Access token required." :=
  ⟨by decide, by decide,
    (missing_or_wrong_type_rejected { algorithm := .ES256, publicKey := some 1 }
      (.pairPriv 1) { sub := "u", email := "e", exp := some 100 } 0
      (by decide) (by decide)).1 (by decide),
    (missing_or_wrong_type_rejected { algorithm := .ES256, publicKey := some 1 }
      (.pairPriv 1) { sub := "u", email := "e", exp := some 100 } 0
      (by decide) (by decide)).2 (by decide),
    (missing_or_wrong_type_rejected { algorithm := .ES256, publicKey := some 1 }
      (.pairPriv 1)
      { sub := "u", email := "e", exp := some 100, type := some "Access" } 0
      (by decide) (by decide)).1 (by decide)⟩

/-- C7: whenever the Authorization header is missing, does not split into
exactly two space-separated parts, or does not use the Bearer scheme,
extractToken returns null and both middlewares reject with status 401 and
the extraction message; the rejection is identical for every config, clock
and token parser, so no key loading, token parsing or cryptographic work can
influence it. -/
theorem bearer_extraction_rejects (h : Option String)
    (hbad : extractionFailShape h = true)
    (c c2 : JWTMiddlewareConfig) (parse parse2 : String → Token)
    (now now2 : Nat) :
    extractToken h = none ∧
    jwtAuthOnRequest c h parse now =
      .reject 401 "Authorization header is missing or invalid" ∧
    jwtAuthOnRequest c h parse now = jwtAuthOnRequest c2 h parse2 now2 ∧
    refreshTokenAuthOnRequest c h parse now =
      .reject 401 "Authorization header is missing or invalid" := by
  have hnone : extractToken h = none := by
    cases h with
    | none => rfl
    | some s =>
      by_cases hs : s = ""
      · simp [extractToken, hs]
      · simp only [extractionFailShape, Bool.or_eq_true, bne_iff_ne,
          ne_eq] at hbad
        rcases hsplit : s.splitOn " " with _ | ⟨a, _ | ⟨b, rest⟩⟩
        · simp [extractToken, hs, hsplit]
        · simp [extractToken, hs, hsplit]
        · cases rest with
          | nil =>
            have ha : a ≠ "Bearer" := by
              rcases hbad with hlen | hhead
              · rw [hsplit] at hlen; simp at hlen
              · rw [hsplit] at hhead; simpa using hhead
            simp [extractToken, hs, hsplit, ha]
          | cons x xs => simp [extractToken, hs, hsplit]
  refine ⟨hnone, ?_, ?_, ?_⟩
  · simp [jwtAuthOnRequest, hnone]
  · simp [jwtAuthOnRequest, hnone]
  · simp [refreshTokenAuthOnRequest, hnone]

/-- C7 witness: a request with no Authorization header fails extraction and
both middlewares reject it with 401 and the extraction message, under two
different configs, parsers and clocks. -/
theorem bearer_extraction_rejects_witness :
    extractionFailShape none = true ∧
    extractToken none = none ∧
    jwtAuthOnRequest { algorithm := .HS256, secret := some "k" } none
      (fun _ => Token.malformed) 0 =
      .reject 401 "Authorization header is missing or invalid" ∧
    refreshTokenAuthOnRequest { algorithm := .HS256, secret := some "k" } none
      (fun _ => Token.malformed) 0 =
      .reject 401 "Authorization header is missing or invalid" :=
  ⟨rfl,
    (bearer_extraction_rejects none rfl
      { algorithm := .HS256, secret := some "k" }
      { algorithm := .RS256, publicKey := some 1 }
      (fun _ => Token.malformed) (fun _ => Token.malformed) 0 99).1,
    (bearer_extraction_rejects none rfl
      { algorithm := .HS256, secret := some "k" }
      { algorithm := .RS256, publicKey := some 1 }
      (fun _ => Token.malformed) (fun _ => Token.malformed) 0 99).2.1,
    (bearer_extraction_rejects none rfl
      { algorithm := .HS256, secret := some "k" }
      { algorithm := .RS256, publicKey := some 1 }
      (fun _ => Token.malformed) (fun _ => Token.malformed) 0 99).2.2.2⟩

/-- C8: the request outcome the logging middleware hands back is exactly the
wrapped handler chain's outcome, for every database write function — so the
HTTP response status and body are identical whether the log write succeeds
or fails — and a failing write is swallowed inside saveLog, never
propagated. -/
theorem logging_isolation (requestId timestamp method path : String)
    (ip userAgent : Option String) (latencyMs : Nat) (next : NextOutcome)
    (db db2 : RequestLog → Except String Unit) :
    (requestLogger (some db) requestId timestamp method path ip userAgent
        latencyMs next).1 = next ∧
    (requestLogger (some db) requestId timestamp method path ip userAgent
        latencyMs next).1 =
      (requestLogger (some db2) requestId timestamp method path ip userAgent
        latencyMs next).1 ∧
    (∀ log, saveLog db log = .saved ∨
      ∃ m, saveLog db log = .swallowed m) := by
  refine ⟨rfl, rfl, fun log => ?_⟩
  unfold saveLog
  cases db log with
  | ok _ => exact .inl rfl
  | error e => exact .inr ⟨e, rfl⟩

/-- C9: whatever iteration count the client supplies (as the iterations
query parameter of /auth/password/login or the iterations body field of
/auth/password/hash), the iteration count actually fed to PBKDF2 is clamped
into the range 1000 to 100000 inclusive. -/
theorem pbkdf2_iterations_bounded (p q : Option Int) :
    1000 ≤ loginIterations p ∧ loginIterations p ≤ 100000 ∧
    1000 ≤ hashIterations q ∧ hashIterations q ≤ 100000 := by
  unfold loginIterations hashIterations clampIterations
  rcases p with _ | i <;> rcases q with _ | j <;>
    refine ⟨?_, ?_, ?_, ?_⟩ <;> simp only [] <;> omega

/-- C5 counterexample: a validly signed, unexpired HS256 token of type
"refresh" presented to the access middleware is rejected with the distinct
message "Invalid token type. Access token required.", which app.onError
echoes in the response body — not the single generic message the claim
asserts, and the wrong-type cause is thereby disclosed to the client. -/
theorem uniform_error_message_counterexample :
    jwtAuthCore { algorithm := .HS256, secret := some "k" }
      (signToken .HS256 (.hmacSecret "k")
        { sub := "u", email := "e", exp := some 100, type := some "refresh" })
      0 = .reject 401 "Invalid token type. Access token required." ∧
    rejectionResponse
      (jwtAuthCore { algorithm := .HS256, secret := some "k" }
        (signToken .HS256 (.hmacSecret "k")
          { sub := "u", email := "e", exp := some 100,
            type := some "refresh" }) 0) =
      some { status := 401, label := "Request Error",
             message := "Invalid token type. Access token required." } ∧
    "Invalid token type. Access token required." ≠
      "Invalid or expired token" :=
  ⟨by decide, by decide, by decide⟩

/-- C5 amended: every rejection of either middleware carries status 401;
signature, algorithm, expiry and missing-key failures are collapsed to the
generic message ("Invalid or expired token" at access endpoints, "Invalid or
expired refresh token" at refresh endpoints), but a wrong token type is
reported with its own distinct message, which app.onError echoes to the
client. -/
theorem rejection_status_and_messages :
    (∀ (c : JWTMiddlewareConfig) (h : Option String)
        (parse : String → Token) (now s : Nat) (m : String),
      jwtAuthOnRequest c h parse now = .reject s m →
      s = 401 ∧ (m = "Authorization header is missing or invalid" ∨
        m = "Invalid or expired token" ∨
        m = "Invalid token type. Access token required.")) ∧
    (∀ (c : JWTMiddlewareConfig) (h : Option String)
        (parse : String → Token) (now s : Nat) (m : String),
      refreshTokenAuthOnRequest c h parse now = .reject s m →
      s = 401 ∧ (m = "Authorization header is missing or invalid" ∨
        m = "Invalid or expired refresh token" ∨
        m = "Invalid token type. Refresh token required.")) ∧
    (∀ (c : JWTMiddlewareConfig) (t : Token) (now : Nat) (e : JwtError),
      verifyToken t (mwJwtConfig c) now = .error e →
      jwtAuthCore c t now = .reject 401 "Invalid or expired token") ∧
    (∀ (c : JWTMiddlewareConfig) (t : Token) (now : Nat) (p : TokenPayload),
      verifyToken t (mwJwtConfig c) now = .ok p → p.type ≠ some "access" →
      jwtAuthCore c t now =
        .reject 401 "Invalid token type. Access token required.") := by
  refine ⟨?_, ?_, ?_, ?_⟩
  · intro c h parse now s m hr
    unfold jwtAuthOnRequest at hr
    cases hx : extractToken h with
    | none =>
      rw [hx] at hr
      simp only [AuthResult.reject.injEq] at hr
      exact ⟨hr.1.symm, .inl hr.2.symm⟩
    | some tok =>
      rw [hx] at hr
      dsimp only at hr
      by_cases htok : tok = ""
      · rw [if_pos htok] at hr
        simp only [AuthResult.reject.injEq] at hr
        exact ⟨hr.1.symm, .inl hr.2.symm⟩
      · rw [if_neg htok] at hr
        unfold jwtAuthCore at hr
        cases hv : verifyToken (parse tok) (mwJwtConfig c) now with
        | error e =>
          rw [hv] at hr
          simp only [AuthResult.reject.injEq] at hr
          exact ⟨hr.1.symm, .inr (.inl hr.2.symm)⟩
        | ok p =>
          rw [hv] at hr
          dsimp only at hr
          by_cases hty : p.type = some "access"
          · rw [if_pos hty] at hr
            simp at hr
          · rw [if_neg hty] at hr
            simp only [AuthResult.reject.injEq] at hr
            exact ⟨hr.1.symm, .inr (.inr hr.2.symm)⟩
  · intro c h parse now s m hr
    unfold refreshTokenAuthOnRequest at hr
    cases hx : extractToken h with
    | none =>
      rw [hx] at hr
      simp only [AuthResult.reject.injEq] at hr
      exact ⟨hr.1.symm, .inl hr.2.symm⟩
    | some tok =>
      rw [hx] at hr
      dsimp only at hr
      by_cases htok : tok = ""
      · rw [if_pos htok] at hr
        simp only [AuthResult.reject.injEq] at hr
        exact ⟨hr.1.symm, .inl hr.2.symm⟩
      · rw [if_neg htok] at hr
        unfold refreshTokenAuthCore at hr
        cases hv : verifyToken (parse tok) (mwJwtConfig c) now with
        | error e =>
          rw [hv] at hr
          simp only [AuthResult.reject.injEq] at hr
          exact ⟨hr.1.symm, .inr (.inl hr.2.symm)⟩
        | ok p =>
          rw [hv] at hr
          dsimp only at hr
          by_cases hty : p.type = some "refresh"
          · rw [if_pos hty] at hr
            simp at hr
          · rw [if_neg hty] at hr
            simp only [AuthResult.reject.injEq] at hr
            exact ⟨hr.1.symm, .inr (.inr hr.2.symm)⟩
  · intro c t now e he
    simp [jwtAuthCore, he]
  · intro c t now p hp hty
    simp [jwtAuthCore, hp, hty]

/-- C5 amended witness: the missing-header rejection has status 401 and one
of the listed messages, and a concrete valid refresh-type token at the
access middleware produces the distinct wrong-type message. -/
theorem rejection_status_and_messages_witness :
    ((401 : Nat) = 401 ∧
      ("Authorization header is missing or invalid" =
          "Authorization header is missing or invalid" ∨
        "Authorization header is missing or invalid" =
          "Invalid or expired token" ∨
        "Authorization header is missing or invalid" =
          "Invalid token type. Access token required.")) ∧
    jwtAuthCore { algorithm := .HS256, secret := some "k" }
      (signToken .HS256 (.hmacSecret "k")
        { sub := "u", email := "e", exp := some 100, type := some "refresh" })
      0 = .reject 401 "Invalid token type. Access token required." :=
  ⟨rejection_status_and_messages.1
      { algorithm := .HS256, secret := some "k" } none
      (fun _ => Token.malformed) 0 401
      "Authorization header is missing or invalid" rfl,
    rejection_status_and_messages.2.2.2
      { algorithm := .HS256, secret := some "k" }
      (signToken .HS256 (.hmacSecret "k")
        { sub := "u", email := "e", exp := some 100, type := some "refresh" })
      0
      { sub := "u", email := "e", exp := some 100, type := some "refresh" }
      rfl (by decide)⟩

/-- C6 counterexample: with no HS256 secret configured, a request carrying a
token is rejected by the middleware with status 401 and the generic token
message, rendered by app.onError with status 401 — a client error, not the
5xx-class operator fault the claim asserts. -/
theorem config_fault_counterexample :
    jwtAuthCore { algorithm := .HS256, secret := none }
      (signToken .HS256 (.hmacSecret "k") { sub := "u", email := "e" }) 0 =
      .reject 401 "Invalid or expired token" ∧
    rejectionResponse
      (jwtAuthCore { algorithm := .HS256, secret := none }
        (signToken .HS256 (.hmacSecret "k") { sub := "u", email := "e" })
        0) =
      some { status := 401, label := "Request Error",
             message := "Invalid or expired token" } ∧
    ¬ (500 ≤ 401) :=
  ⟨rfl, rfl, by decide⟩

/-- C6 amended: when the required key material is absent (no secret for
HS256, no public key for RS256/ES256), verifyToken throws the missing-key
Error, but the middleware's catch-all converts it into the same 401 response
with the generic token message as any verification failure; app.onError then
renders a 401 Request Error — the configuration fault is not distinguished
from a verification failure at the HTTP layer (only the server-side log
differs). -/
theorem missing_key_yields_401 (c : JWTMiddlewareConfig) (t : Token)
    (now : Nat)
    (hmiss : (c.algorithm = .HS256 ∧ c.secret = none) ∨
             (c.algorithm ≠ .HS256 ∧ c.publicKey = none)) :
    jwtAuthCore c t now = .reject 401 "Invalid or expired token" ∧
    refreshTokenAuthCore c t now =
      .reject 401 "Invalid or expired refresh token" ∧
    (appOnError 401 "Invalid or expired token").status = 401 ∧
    (appOnError 401 "Invalid or expired token").label = "Request Error" := by
  have hv : ∃ e, verifyToken t (mwJwtConfig c) now = .error e := by
    rcases hmiss with ⟨ha, hs⟩ | ⟨ha, hp⟩
    · exact ⟨.secretRequired, by simp [verifyToken, mwJwtConfig, ha, hs]⟩
    · cases halg : c.algorithm
      case HS256 => exact absurd halg ha
      case RS256 =>
        exact ⟨.publicKeyRequired,
          by simp [verifyToken, mwJwtConfig, halg, hp]⟩
      case ES256 =>
        exact ⟨.publicKeyRequired,
          by simp [verifyToken, mwJwtConfig, halg, hp]⟩
  obtain ⟨e, he⟩ := hv
  exact ⟨by simp [jwtAuthCore, he], by simp [refreshTokenAuthCore, he],
    rfl, rfl⟩

/-- C6 amended witness: an ES256 middleware with no public key configured
rejects a concrete token with 401 and the generic message. -/
theorem missing_key_yields_401_witness :
    jwtAuthCore { algorithm := .ES256 } Token.malformed 0 =
      .reject 401 "Invalid or expired token" ∧
    refreshTokenAuthCore { algorithm := .ES256 } Token.malformed 0 =
      .reject 401 "Invalid or expired refresh token" :=
  ⟨(missing_key_yields_401 { algorithm := .ES256 } Token.malformed 0
      (.inr ⟨by decide, rfl⟩)).1,
    (missing_key_yields_401 { algorithm := .ES256 } Token.malformed 0
      (.inr ⟨by decide, rfl⟩)).2.1⟩
